import Mathlib

/-!
Shallow embedding of the swap-coordination core of the repository:
the cooperative MuSig2 co-signer (`MusigSigner.ts`), the service
creation/validation path (`Service`), and the timeout-delta calculator
(`TimeoutDeltaProvider`).  Definitions are transcribed from the
TypeScript sources; external collaborators (RPC clients, hash
functions, the TOML serializer) appear as explicit parameters or
plainly marked stand-ins.
-/

/-- Swap status enumeration, from `consts/Enums` (statuses appearing in the sources). -/
inductive SwapUpdateEvent where
  | SwapCreated
  | TransactionWaiting
  | TransactionMempool
  | TransactionConfirmed
  | TransactionFailed
  | InvoicePending
  | InvoicePaid
  | InvoiceFailedToPay
  | InvoiceSettled
  | InvoiceExpired
  | ChannelCreated
  | TransactionClaimed
  | TransactionRefunded
  | SwapExpired
deriving DecidableEq

/-- Swap script versions, from `consts/Enums`. -/
inductive SwapVersion where
  | Legacy
  | Taproot
deriving DecidableEq

/-- Swap kinds, from `consts/Enums` (both the creation-path names and the
`Chain` kind tested by `MusigSigner.hasNonFailedLightningPayment`). -/
inductive SwapType where
  | Submarine
  | ReverseSubmarine
  | ChainToChain
  | Chain
deriving DecidableEq

/-- Order sides, from `consts/Enums`. -/
inductive OrderSide where
  | BUY
  | SELL
deriving DecidableEq

/-- Modelled from the spec: `FailedSwapUpdateEvents` is declared in
`consts/Enums`, which is not among the provided sources; the spec lists its
members as TransactionFailed, InvoiceFailedToPay, SwapExpired,
TransactionRefunded and InvoiceExpired. -/
def FailedSwapUpdateEvents : List SwapUpdateEvent :=
  [SwapUpdateEvent.TransactionFailed, SwapUpdateEvent.InvoiceFailedToPay,
   SwapUpdateEvent.SwapExpired, SwapUpdateEvent.TransactionRefunded,
   SwapUpdateEvent.InvoiceExpired]

/-- Outcome of one RPC call to an external client: a value, or a thrown error. -/
inductive RpcResult (α : Type) where
  | ok (val : α)
  | rpcError
deriving DecidableEq

/-- Status of a Lightning payment, from the LND `Payment.PaymentStatus` proto. -/
inductive PaymentStatus where
  | UNKNOWN
  | IN_FLIGHT
  | SUCCEEDED
  | FAILED
deriving DecidableEq

/-- The one LND call `MusigSigner` makes: `trackPayment(preimageHash)`,
modelled by its outcome for each preimage hash. -/
structure LndClient where
  trackPayment : String → RpcResult PaymentStatus

/-- The one CLN call `MusigSigner` makes: `checkPayStatus(invoice)`, whose
successful outcome is a payment record (`some`) or `undefined` (`none`). -/
structure ClnClient where
  checkPayStatus : String → RpcResult (Option Unit)

/-- A currency entry of the `currencies` map: optional chain / LND / CLN
handles, as in `wallet/WalletManager`. -/
structure Currency where
  symbol : String
  chainClient : Option Unit
  lndClient : Option LndClient
  clnClient : Option ClnClient

/-- The swap-record fields `MusigSigner.signRefund` and its helpers read. -/
structure SwapRecord where
  type : SwapType
  version : SwapVersion
  status : SwapUpdateEvent
  preimageHash : String
  invoice : Option String
deriving DecidableEq

/-- `MusigSigner.hasNonFailedLightningPayment`, transcribed from
`src/lib/service/cooperative/MusigSigner.ts` lines 172-207: chain swaps have
no Lightning payment; an LND `trackPayment` answer with status other than
FAILED means a non-failed payment exists; an LND RPC error is swallowed by an
empty catch and execution falls through to the CLN block; a CLN
`checkPayStatus` record means a payment exists, and a CLN RPC error is
caught by returning `true`. -/
def hasNonFailedLightningPayment (currency : Currency) (swap : SwapRecord) : Bool :=
  if swap.type = SwapType.Chain then
    false
  else
    let lndNonFailed : Bool :=
      match currency.lndClient with
      | some lnd =>
        match lnd.trackPayment swap.preimageHash with
        | RpcResult.ok status => decide (status ≠ PaymentStatus.FAILED)
        | RpcResult.rpcError => false
      | none => false
    if lndNonFailed then
      true
    else
      match currency.clnClient, swap.invoice with
      | some cln, some invoice =>
        match cln.checkPayStatus invoice with
        | RpcResult.ok (some _) => true
        | RpcResult.ok none => false
        | RpcResult.rpcError => true
      | _, _ => false

/-- `MusigSigner.isEligibleForRefund`, transcribed from `MusigSigner.ts`
lines 161-170. -/
def isEligibleForRefund (swap : SwapRecord) (lightningCurrency : Option Currency) : Bool :=
  decide (swap.status ∈ FailedSwapUpdateEvents) &&
    (match lightningCurrency with
     | none => true
     | some currency => !(hasNonFailedLightningPayment currency swap))

/-- Errors `signRefund` can throw, from `service/Errors`. -/
inductive RefundSignError where
  | SWAP_NOT_FOUND
  | CURRENCY_NOT_UTXO_BASED
  | NOT_ELIGIBLE_FOR_COOPERATIVE_REFUND
deriving DecidableEq

/-- The environment a `signRefund` call runs against: the repository lookup
result for the swap id, the chain currency, and the `currencies` map lookup
of the Lightning currency (which may be absent). -/
structure RefundEnv where
  swap : Option SwapRecord
  chainCurrency : Currency
  lightningCurrency : Option Currency

/-- `MusigSigner.signRefund`, transcribed from `MusigSigner.ts` lines 42-93;
`.ok ()` stands for the produced partial signature, whose cryptographic
content (`createPartialSignature`) is out of scope. -/
def signRefund (env : RefundEnv) : Except RefundSignError Unit :=
  match env.swap with
  | none => Except.error RefundSignError.SWAP_NOT_FOUND
  | some swap =>
    if env.chainCurrency.chainClient = none then
      Except.error RefundSignError.CURRENCY_NOT_UTXO_BASED
    else if swap.version ≠ SwapVersion.Taproot ∨
        isEligibleForRefund swap env.lightningCurrency = false then
      Except.error RefundSignError.NOT_ELIGIBLE_FOR_COOPERATIVE_REFUND
    else
      Except.ok ()

/-- Errors `signReverseSwapClaim` can throw, from `service/Errors`. -/
inductive ClaimSignError where
  | SWAP_NOT_FOUND
  | NOT_ELIGIBLE_FOR_COOPERATIVE_CLAIM
  | INCORRECT_PREIMAGE
deriving DecidableEq

/-- The reverse-swap-record fields `signReverseSwapClaim` reads and writes. -/
structure ReverseSwapRecord where
  version : SwapVersion
  status : SwapUpdateEvent
  preimageHash : String
  preimage : Option String
deriving DecidableEq

/-- The reverse-swap statuses eligible for a cooperative claim, inlined in
`MusigSigner.ts` lines 109-113. -/
def reverseClaimableStatuses : List SwapUpdateEvent :=
  [SwapUpdateEvent.TransactionMempool, SwapUpdateEvent.TransactionConfirmed,
   SwapUpdateEvent.InvoiceSettled]

/-- Decidable equality of call results, used to evaluate the models on
concrete inputs. -/
instance instDecidableEqExcept {ε α : Type} [DecidableEq ε] [DecidableEq α] :
    DecidableEq (Except ε α) := fun x y =>
  match x, y with
  | Except.ok a, Except.ok b =>
    if h : a = b then isTrue (by rw [h])
    else isFalse (fun hc => h (by injection hc))
  | Except.ok _, Except.error _ => isFalse (fun hc => Except.noConfusion hc)
  | Except.error _, Except.ok _ => isFalse (fun hc => Except.noConfusion hc)
  | Except.error e, Except.error f =>
    if h : e = f then isTrue (by rw [h])
    else isFalse (fun hc => h (by injection hc))

/-- Final state of a `signReverseSwapClaim` call: its result (`.ok ()` stands
for the produced partial signature), the swap record as left behind
(`WrappedSwapRepository.setPreimage` is the only field write), and whether the
held invoice was settled inside the `reverseSwapLock`. -/
structure ClaimOutcome where
  result : Except ClaimSignError Unit
  swapAfter : Option ReverseSwapRecord
  settledInvoice : Bool
deriving DecidableEq

/-- `MusigSigner.signReverseSwapClaim`, transcribed from `MusigSigner.ts`
lines 95-159.  `sha256` is passed explicitly because `isPreimageValid` lives
in `cooperative/Utils`, which is not among the provided sources; modelled
from the spec, it verifies `sha256(preimage) == preimageHash`. -/
def signReverseSwapClaim (sha256 : String → String) (swapLookup : Option ReverseSwapRecord)
    (preimage : String) : ClaimOutcome :=
  match swapLookup with
  | none =>
    { result := Except.error ClaimSignError.SWAP_NOT_FOUND
      swapAfter := none
      settledInvoice := false }
  | some swap =>
    if swap.version ≠ SwapVersion.Taproot ∨ swap.status ∉ reverseClaimableStatuses then
      { result := Except.error ClaimSignError.NOT_ELIGIBLE_FOR_COOPERATIVE_CLAIM
        swapAfter := some swap
        settledInvoice := false }
    else if sha256 preimage ≠ swap.preimageHash then
      { result := Except.error ClaimSignError.INCORRECT_PREIMAGE
        swapAfter := some swap
        settledInvoice := false }
    else
      { result := Except.ok ()
        swapAfter := some { swap with preimage := some preimage }
        settledInvoice := decide (swap.status ≠ SwapUpdateEvent.InvoiceSettled) }

/-- Errors of the `Service` creation path, from `service/Errors`. -/
inductive ServiceError where
  | SWAP_WITH_INVOICE_EXISTS
  | EXCEED_MAXIMAL_AMOUNT
  | BENEATH_MINIMAL_AMOUNT
  | PAIR_NOT_FOUND
  | REVERSE_SWAPS_DISABLED
  | ONCHAIN_AMOUNT_TOO_LOW
deriving DecidableEq

/-- Per-pair amount limits, as supplied by the rate provider
(`this.getPair(pairId).limits`). -/
structure PairLimits where
  minimal : Int
  maximal : Int
deriving DecidableEq

/-- `Service.verifyAmount`, transcribed from the `Service` source lines
681-700: the amount is converted with `Math.floor(amount * rate)` exactly
when `(!isReverse && side === BUY) || (isReverse && side === SELL)`, then
checked against the pair limits, maximal bound first. -/
def verifyAmount (limits : Option PairLimits) (rate : ℚ) (amount : Int)
    (orderSide : OrderSide) (type : SwapType) : Except ServiceError Unit :=
  let isReverse := type = SwapType.ReverseSubmarine
  let amountQ : ℚ :=
    if (¬isReverse ∧ orderSide = OrderSide.BUY) ∨ (isReverse ∧ orderSide = OrderSide.SELL) then
      ((⌊(amount : ℚ) * rate⌋ : Int) : ℚ)
    else
      (amount : ℚ)
  match limits with
  | some l =>
    if ⌊amountQ⌋ > l.maximal then Except.error ServiceError.EXCEED_MAXIMAL_AMOUNT
    else if ⌈amountQ⌉ < l.minimal then Except.error ServiceError.BENEATH_MINIMAL_AMOUNT
    else Except.ok ()
  | none => Except.error ServiceError.PAIR_NOT_FOUND

/-- The normalization step of `verifyAmount` as the spec describes it:
`amount ← floor(amount·rate)` when `(kind ≠ Reverse ∧ side = BUY) ∨
(kind = Reverse ∧ side = SELL)`.  Stated separately so the theorems compare
the code path against this formula. -/
def normalizeAmount (rate : ℚ) (amount : Int) (orderSide : OrderSide) (type : SwapType) : Int :=
  if (¬type = SwapType.ReverseSubmarine ∧ orderSide = OrderSide.BUY) ∨
      (type = SwapType.ReverseSubmarine ∧ orderSide = OrderSide.SELL) then
    ⌊(amount : ℚ) * rate⌋
  else
    amount

/-- `Service.createReverseSwap`, amount pipeline transcribed from the
`Service` source lines 425-449: gate on `allowReverseSwaps`, verify the
amount, compute `onchainAmount = Math.floor(invoiceAmount * rate) -
(baseFee + percentageFee)` and reject amounts below 1.  The successful
result is the `onchainAmount` handed to the swap manager, persisted and
returned. -/
def createReverseSwap (allowReverseSwaps : Bool) (limits : Option PairLimits) (rate : ℚ)
    (orderSide : OrderSide) (invoiceAmount baseFee percentageFee : Int) :
    Except ServiceError Int :=
  if allowReverseSwaps = false then
    Except.error ServiceError.REVERSE_SWAPS_DISABLED
  else
    match verifyAmount limits rate invoiceAmount orderSide SwapType.ReverseSubmarine with
    | Except.error e => Except.error e
    | Except.ok () =>
      let onchainAmount : Int := ⌊(invoiceAmount : ℚ) * rate⌋ - (baseFee + percentageFee)
      if onchainAmount < 1 then Except.error ServiceError.ONCHAIN_AMOUNT_TOO_LOW
      else Except.ok onchainAmount

/-- A value stored in a persisted record field. -/
inductive FieldVal where
  | int (i : Int)
  | str (s : String)
  | bool (b : Bool)
deriving DecidableEq

/-- Numeric encoding of an order side, as stored by the repository. -/
def orderSideNum : OrderSide → Int
  | OrderSide.BUY => 0
  | OrderSide.SELL => 1

/-- The fields `SwapManager.createSwap` hands back to `Service.createSwap`. -/
structure MgrSwapResult where
  address : String
  keyIndex : Int
  redeemScript : String
  timeoutBlockHeight : Int
deriving DecidableEq

/-- What a successful `Service.createSwap` produces: the `expectedAmount`
argument handed to the swap manager, the record handed to
`swapRepository.addSwap` (field name / value pairs exactly as in the object
literal), and the response returned to the caller. -/
structure CreateSwapOutcome where
  managerExpectedAmount : Int
  persisted : List (String × FieldVal)
  responseExpectedAmount : Int
  responseTimeoutBlockHeight : Int
deriving DecidableEq

/-- `Service.createSwap`, transcribed from the `Service` source lines
344-420: reject duplicate invoices, verify the amount, compute
`expectedAmount = Math.ceil(invoiceAmount * rate) + baseFee + percentageFee`,
query the zero-conf policy at that amount, call the swap manager, persist,
and respond.  `hasSwapWithInvoice` is the repository lookup outcome and
`acceptZeroConfAt` the rate provider's policy. -/
def createSwap (hasSwapWithInvoice : Bool) (limits : Option PairLimits) (rate : ℚ)
    (orderSide : OrderSide) (invoiceAmount baseFee percentageFee : Int)
    (acceptZeroConfAt : Int → Bool) (id invoice pairId : String)
    (mgr : MgrSwapResult) : Except ServiceError CreateSwapOutcome :=
  if hasSwapWithInvoice then
    Except.error ServiceError.SWAP_WITH_INVOICE_EXISTS
  else
    match verifyAmount limits rate invoiceAmount orderSide SwapType.Submarine with
    | Except.error e => Except.error e
    | Except.ok () =>
      let expectedAmount : Int := ⌈(invoiceAmount : ℚ) * rate⌉ + baseFee + percentageFee
      let acceptZeroConf := acceptZeroConfAt expectedAmount
      Except.ok
        { managerExpectedAmount := expectedAmount
          persisted :=
            [(("id"), FieldVal.str id),
             (("invoice"), FieldVal.str invoice),
             (("keyIndex"), FieldVal.int mgr.keyIndex),
             (("redeemScript"), FieldVal.str mgr.redeemScript),
             (("acceptZeroConf"), FieldVal.bool acceptZeroConf),
             (("timeoutBlockHeight"), FieldVal.int mgr.timeoutBlockHeight),
             (("pair"), FieldVal.str pairId),
             (("orderSide"), FieldVal.int (orderSideNum orderSide)),
             (("fee"), FieldVal.int percentageFee),
             (("lockupAddress"), FieldVal.str mgr.address)]
          responseExpectedAmount := expectedAmount
          responseTimeoutBlockHeight := mgr.timeoutBlockHeight }

/-- Errors `TimeoutDeltaProvider` can throw, from `service/Errors`.
`MIN_EXPIRY_TOO_BIG` carries the maximal chain-side minutes and the route's
needed minutes, as passed at the throw site. -/
inductive TimeoutError where
  | PAIR_NOT_FOUND
  | INVALID_TIMEOUT_BLOCK_DELTA
  | NO_TIMEOUT_DELTA
  | MIN_EXPIRY_TOO_BIG (maximalMinutes routeMinutes : Int)
deriving DecidableEq

/-- `TimeoutDeltaProvider.blockTimes` with the `getBlockTime` fallback:
minutes per block for BTC, LTC, ETH and the Elements/Liquid symbol
(`ElementsClient.symbol`, `L-BTC`, is declared in `chain/ElementsClient`,
which is not among the sources; the value 1 is in the table).  An unknown
symbol is assumed to be an ERC20 token and falls back to the ETH entry. -/
def getBlockTime (symbol : String) : ℚ :=
  if symbol = ("BTC") then 10
  else if symbol = ("LTC") then 5 / 2
  else if symbol = ("ETH") then 1 / 5
  else if symbol = ("L-BTC") then 1
  else 1 / 5

/-- `TimeoutDeltaProvider.convertBlocks`: `blocks` blocks of `fromSymbol`
expressed in minutes, then divided by the block time of `toSymbol` and
rounded up. -/
def convertBlocks (fromSymbol toSymbol : String) (blocks : Int) : Int :=
  ⌈((blocks : ℚ) * getBlockTime fromSymbol) / getBlockTime toSymbol⌉

/-- `TimeoutDeltaProvider.routingOffset` (minutes). -/
def routingOffset : Int := 60

/-- `TimeoutDeltaProvider.noRoutes`, the sentinel `checkRoutability` returns
when no route was found. -/
def noRoutes : Int := -1

/-- A per-side timeout-delta record, in blocks (the values stored in
`timeoutDeltas` after conversion). -/
structure PairTimeoutBlocksDelta where
  reverse : Int
  swapMinimal : Int
  swapMaximal : Int
deriving DecidableEq

/-- Both sides' delta records of a pair. -/
structure PairTimeoutBlockDeltas where
  base : PairTimeoutBlocksDelta
  quote : PairTimeoutBlocksDelta
deriving DecidableEq

/-- A timeout-delta record as configured, in minutes (the same
`PairTimeoutBlocksDelta` shape in the source, before conversion). -/
structure PairTimeoutMinutes where
  reverse : ℚ
  swapMinimal : ℚ
  swapMaximal : ℚ
deriving DecidableEq

/-- `TimeoutDeltaProvider.getTimeoutInvoice`, transcribed from the
`TimeoutDeltaProvider` source lines 226-277, taking the already-computed
routability result `routeTimeLock` and the Lightning-side block height
`lnBlocks` as inputs: the sentinel accepts with the maximal timeout but
flags the swap unusable; otherwise the route's relative CLTV is converted to
minutes, padded with `routingOffset`, and converted to chain blocks. -/
def getTimeoutInvoice (chainCurrency lightningCurrency : String)
    (chainTimeout : PairTimeoutBlocksDelta) (routeTimeLock lnBlocks : Int) :
    Except TimeoutError (Int × Bool) :=
  if routeTimeLock = noRoutes then
    Except.ok (chainTimeout.swapMaximal, false)
  else
    let routeDeltaRelative := routeTimeLock - lnBlocks
    let routeDeltaMinutes : Int := ⌈(routeDeltaRelative : ℚ) * getBlockTime lightningCurrency⌉
    let finalExpiry : Int := routeDeltaMinutes + routingOffset
    let minTimeout : Int := ⌈(finalExpiry : ℚ) / getBlockTime chainCurrency⌉
    if minTimeout > chainTimeout.swapMaximal then
      Except.error (TimeoutError.MIN_EXPIRY_TOO_BIG
        ⌈(chainTimeout.swapMaximal : ℚ) * getBlockTime chainCurrency⌉ routeDeltaMinutes)
    else
      Except.ok (max chainTimeout.swapMinimal minTimeout, true)

/-- The `calculateBlocks` helper of `TimeoutDeltaProvider.minutesToBlocks`:
divide the configured minutes by the symbol's block time and reject any
quotient that is not an integer at least 1 (`blocks % 1 !== 0 || blocks < 1`). -/
def calculateBlocks (symbol : String) (minutes : ℚ) : Except TimeoutError Int :=
  let blocks : ℚ := minutes / getBlockTime symbol
  if blocks.den ≠ 1 ∨ blocks < 1 then
    Except.error TimeoutError.INVALID_TIMEOUT_BLOCK_DELTA
  else
    Except.ok blocks.num

/-- The `convertToBlocks` helper of `minutesToBlocks`: all three minute
values of one symbol, in the order of the object literal. -/
def convertToBlocks (symbol : String) (newDeltas : PairTimeoutMinutes) :
    Except TimeoutError PairTimeoutBlocksDelta :=
  match calculateBlocks symbol newDeltas.reverse with
  | Except.error e => Except.error e
  | Except.ok r =>
    match calculateBlocks symbol newDeltas.swapMinimal with
    | Except.error e => Except.error e
    | Except.ok mn =>
      match calculateBlocks symbol newDeltas.swapMaximal with
      | Except.error e => Except.error e
      | Except.ok mx => Except.ok { reverse := r, swapMinimal := mn, swapMaximal := mx }

/-- Splits a character list at the first slash. -/
def splitAtSlash : List Char → List Char → List Char × List Char
  | [], acc => (acc.reverse, [])
  | c :: rest, acc =>
    if c = ('/') then (acc.reverse, rest)
    else splitAtSlash rest (c :: acc)

/-- Modelled from the spec: `splitPairId` lives in `Utils`, which is not
among the sources; a pair id is `base/quote` with the slash as separator. -/
def splitPairId (pairId : String) : String × String :=
  let parts := splitAtSlash pairId.toList []
  (String.mk parts.1, String.mk parts.2)

/-- `TimeoutDeltaProvider.minutesToBlocks`, transcribed from the
`TimeoutDeltaProvider` source lines 279-309. -/
def minutesToBlocks (pair : String) (newDeltas : PairTimeoutMinutes) :
    Except TimeoutError PairTimeoutBlockDeltas :=
  let bq := splitPairId pair
  match convertToBlocks bq.1 newDeltas with
  | Except.error e => Except.error e
  | Except.ok b =>
    match convertToBlocks bq.2 newDeltas with
    | Except.error e => Except.error e
    | Except.ok q => Except.ok { base := b, quote := q }

/-- A `timeoutDelta` configuration value: a legacy single number of minutes,
or the full three-value table. -/
def TimeoutDeltaSetting : Type := Sum ℚ PairTimeoutMinutes

instance : DecidableEq TimeoutDeltaSetting := by
  unfold TimeoutDeltaSetting
  infer_instance

/-- A `pairs` entry of the configuration file: `{base, quote, rate?, fee,
timeoutDelta}` per the config schema. -/
structure ConfigPair where
  base : String
  quote : String
  rate : Option ℚ
  fee : ℚ
  timeoutDelta : Option TimeoutDeltaSetting
deriving DecidableEq

/-- `getPairId` from `Utils`: `base/quote`. -/
def getPairId (p : ConfigPair) : String :=
  p.base ++ ("/") ++ p.quote

/-- The configuration object (`ConfigType`): its path on disk, the pairs
array, and all remaining top-level fields, kept abstract as key/value
pairs. -/
structure ServiceConfig where
  configpath : String
  pairs : List ConfigPair
  extra : List (String × String)
deriving DecidableEq

/-- Plain rendering of a rational, for the serializer stand-in. -/
def ratToString (q : ℚ) : String :=
  toString q.num ++ ("/") ++ toString q.den

/-- Rendering of a `timeoutDelta` setting, for the serializer stand-in. -/
def serializeTimeoutDelta : Option TimeoutDeltaSetting → String
  | none => ("")
  | some (Sum.inl m) => ratToString m
  | some (Sum.inr t) =>
    ratToString t.reverse ++ (",") ++ ratToString t.swapMinimal ++ (",") ++
      ratToString t.swapMaximal

/-- Rendering of one pairs entry, for the serializer stand-in. -/
def serializeConfigPair (p : ConfigPair) : String :=
  getPairId p ++ (";") ++
    (match p.rate with
     | none => ("")
     | some r => ratToString r) ++ (";") ++
    ratToString p.fee ++ (";") ++ serializeTimeoutDelta p.timeoutDelta

/-- Stand-in for `toml.stringify` (external library): a rendering of the
whole configuration object, every field included. -/
def serializeConfig (c : ServiceConfig) : String :=
  c.configpath ++ ("|") ++
    String.intercalate ("|") (c.pairs.map serializeConfigPair) ++ ("|") ++
    String.intercalate ("|") (c.extra.map (fun kv => kv.1 ++ ("=") ++ kv.2))

/-- A filesystem effect.  The vocabulary distinguishes a direct overwrite of
a path (`fs.writeFileSync`) from the write-temp-file-then-rename discipline,
so that the write pattern a call performs is observable. -/
inductive FsOp where
  | write (path contents : String)
  | writeTemp (path contents : String)
  | rename (source target : String)
deriving DecidableEq

/-- `Map.set` on an association list: replace the value at the key, or
append the binding. -/
def setAssoc {β : Type} : List (String × β) → String → β → List (String × β)
  | [], key, val => [(key, val)]
  | (k, v) :: rest, key, val =>
    if k = key then (key, val) :: rest
    else (k, v) :: setAssoc rest key val

/-- The `for`-loop of `setTimeout` over `config.pairs`: assign the new
deltas to the `timeoutDelta` of the first entry whose pair id matches, then
break. -/
def updatePairs : List ConfigPair → String → PairTimeoutMinutes → List ConfigPair
  | [], _, _ => []
  | p :: rest, pairId, newDeltas =>
    if getPairId p = pairId then
      { p with timeoutDelta := some (Sum.inr newDeltas) } :: rest
    else
      p :: updatePairs rest pairId newDeltas

/-- The state `TimeoutDeltaProvider.setTimeout` touches: the in-memory
`timeoutDeltas` map and the configuration object. -/
structure TdpState where
  timeoutDeltas : List (String × PairTimeoutBlockDeltas)
  config : ServiceConfig
deriving DecidableEq

/-- `TimeoutDeltaProvider.setTimeout`, transcribed from the
`TimeoutDeltaProvider` source lines 96-119: for a known pair, convert the
new minute deltas to blocks (which may throw), update the in-memory map,
assign the new deltas to the matching config pair, and overwrite the config
file in one `fs.writeFileSync` call; for an unknown pair throw
`PAIR_NOT_FOUND`.  The call returns its thrown-or-ok result, the state left
behind, and the filesystem effects performed. -/
def setTimeout (st : TdpState) (pairId : String) (newDeltas : PairTimeoutMinutes) :
    Except TimeoutError Unit × TdpState × List FsOp :=
  match st.timeoutDeltas.lookup pairId with
  | some _ =>
    match minutesToBlocks pairId newDeltas with
    | Except.error e => (Except.error e, st, [])
    | Except.ok blocks =>
      let timeoutDeltas := setAssoc st.timeoutDeltas pairId blocks
      let config : ServiceConfig :=
        { st.config with pairs := updatePairs st.config.pairs pairId newDeltas }
      (Except.ok (), { timeoutDeltas := timeoutDeltas, config := config },
        [FsOp.write st.config.configpath (serializeConfig config)])
  | none => (Except.error TimeoutError.PAIR_NOT_FOUND, st, [])

/-- The legacy-compatibility expansion in `TimeoutDeltaProvider.init`: a
single number is treated as all three values. -/
def expandTimeoutDelta : TimeoutDeltaSetting → PairTimeoutMinutes
  | Sum.inl m => { reverse := m, swapMaximal := m, swapMinimal := m }
  | Sum.inr t => t

/-- `TimeoutDeltaProvider.init`, transcribed from the `TimeoutDeltaProvider`
source lines 67-94: build the `timeoutDeltas` map from the configured pairs,
expanding legacy single-number deltas and rejecting pairs without a
`timeoutDelta`. -/
def tdInit : List ConfigPair → Except TimeoutError (List (String × PairTimeoutBlockDeltas))
  | [] => Except.ok []
  | p :: rest =>
    match p.timeoutDelta with
    | none => Except.error TimeoutError.NO_TIMEOUT_DELTA
    | some td =>
      match minutesToBlocks (getPairId p) (expandTimeoutDelta td) with
      | Except.error e => Except.error e
      | Except.ok blocks =>
        match tdInit rest with
        | Except.error e => Except.error e
        | Except.ok tail => Except.ok ((getPairId p, blocks) :: tail)

/-- How one `pairs` entry may relate to its successor after `setTimeout`:
every field is preserved, and `timeoutDelta` either is unchanged or, for the
matching pair id, was assigned the new deltas. -/
def pairPreserved (pairId : String) (newDeltas : PairTimeoutMinutes)
    (p q : ConfigPair) : Prop :=
  q.base = p.base ∧ q.quote = p.quote ∧ q.rate = p.rate ∧ q.fee = p.fee ∧
    (q.timeoutDelta = p.timeoutDelta ∨
      (getPairId p = pairId ∧ q.timeoutDelta = some (Sum.inr newDeltas)))

/-- Whether a filesystem trace is the write-temp-file-then-rename discipline
targeting `path`, the pattern an atomic config rewrite would produce. -/
def isTempRenameWrite (path : String) : List FsOp → Bool
  | [FsOp.writeTemp tmp _, FsOp.rename source target] =>
    decide (source = tmp) && decide (target = path)
  | _ => false

/-- A concrete provider state (one known pair, Liquid block time 1) used to
evaluate `setTimeout`. -/
def tdpStateEx : TdpState :=
  { timeoutDeltas :=
      [(("L-BTC/L-BTC"),
        { base := { reverse := 1440, swapMinimal := 240, swapMaximal := 1440 }
          quote := { reverse := 1440, swapMinimal := 240, swapMaximal := 1440 } })]
    config :=
      { configpath := ("boltz.conf")
        pairs :=
          [{ base := ("L-BTC"), quote := ("L-BTC"), rate := some 1, fee := 1,
             timeoutDelta := some (Sum.inl 1440) }]
        extra := [(("loglevel"), ("debug"))] } }

/-- A concrete swap environment (Taproot submarine swap, expired, no
Lightning currency entry) used to evaluate `signRefund`. -/
def refundEnvEx : RefundEnv :=
  { swap := some
      { type := SwapType.Submarine, version := SwapVersion.Taproot,
        status := SwapUpdateEvent.SwapExpired, preimageHash := ("aa"),
        invoice := none }
    chainCurrency :=
      { symbol := ("BTC"), chainClient := some (), lndClient := none,
        clnClient := none }
    lightningCurrency := none }

/-- `isEligibleForRefund` returns true exactly when the status is a failed
update event and the Lightning side, if any, has no non-failed payment. -/
theorem isEligibleForRefund_eq_true_iff (swap : SwapRecord)
    (lightningCurrency : Option Currency) :
    isEligibleForRefund swap lightningCurrency = true ↔
      (swap.status ∈ FailedSwapUpdateEvents ∧
        (lightningCurrency = none ∨
          ∃ c, lightningCurrency = some c ∧
            hasNonFailedLightningPayment c swap = false)) := by
  unfold isEligibleForRefund
  cases lightningCurrency with
  | none => simp
  | some c => simp

/-- C1: for a `signRefund` call on an existing swap whose chain currency is
UTXO-based, a partial signature is produced exactly when the swap is
Taproot, its status is a failed update event, and either there is no
Lightning side or `hasNonFailedLightningPayment` is false; in every other
case the call fails with `NOT_ELIGIBLE_FOR_COOPERATIVE_REFUND`; and a CLN
RPC error in `hasNonFailedLightningPayment` is treated as an existing
payment. -/
theorem signRefund_eligibility (env : RefundEnv) (swap : SwapRecord)
    (hswap : env.swap = some swap)
    (hutxo : env.chainCurrency.chainClient ≠ none) :
    (signRefund env = Except.ok () ↔
      (swap.version = SwapVersion.Taproot ∧
        swap.status ∈ FailedSwapUpdateEvents ∧
        (env.lightningCurrency = none ∨
          ∃ c, env.lightningCurrency = some c ∧
            hasNonFailedLightningPayment c swap = false))) ∧
    (signRefund env ≠ Except.ok () →
      signRefund env = Except.error RefundSignError.NOT_ELIGIBLE_FOR_COOPERATIVE_REFUND) ∧
    (∀ (currency : Currency) (cln : ClnClient) (invoice : String) (s : SwapRecord),
      s.type ≠ SwapType.Chain → currency.clnClient = some cln →
      s.invoice = some invoice →
      cln.checkPayStatus invoice = RpcResult.rpcError →
      hasNonFailedLightningPayment currency s = true) := by
  have hsr : signRefund env =
      (if swap.version ≠ SwapVersion.Taproot ∨
          isEligibleForRefund swap env.lightningCurrency = false then
        Except.error RefundSignError.NOT_ELIGIBLE_FOR_COOPERATIVE_REFUND
      else
        Except.ok ()) := by
    simp only [signRefund, hswap]
    rw [if_neg hutxo]
  refine ⟨?_, ?_, ?_⟩
  · rw [hsr]
    by_cases hc : swap.version ≠ SwapVersion.Taproot ∨
        isEligibleForRefund swap env.lightningCurrency = false
    · rw [if_pos hc]
      constructor
      · intro h
        exact absurd h (by simp)
      · rintro ⟨hv, hmem, hln⟩
        rcases hc with h1 | h2
        · exact absurd hv h1
        · rw [(isEligibleForRefund_eq_true_iff swap env.lightningCurrency).mpr
            ⟨hmem, hln⟩] at h2
          cases h2
    · rw [if_neg hc]
      push_neg at hc
      obtain ⟨hv, helig⟩ := hc
      have helig' : isEligibleForRefund swap env.lightningCurrency = true := by
        cases h : isEligibleForRefund swap env.lightningCurrency
        · exact absurd h helig
        · rfl
      obtain ⟨hmem, hln⟩ := (isEligibleForRefund_eq_true_iff swap
        env.lightningCurrency).mp helig'
      exact iff_of_true rfl ⟨hv, hmem, hln⟩
  · intro hne
    rw [hsr] at hne ⊢
    by_cases hc : swap.version ≠ SwapVersion.Taproot ∨
        isEligibleForRefund swap env.lightningCurrency = false
    · rw [if_pos hc]
    · rw [if_neg hc] at hne
      exact absurd rfl hne
  · intro currency cln invoice s htype hcln hinv herr
    unfold hasNonFailedLightningPayment
    rw [if_neg htype]
    cases hl : currency.lndClient with
    | none => simp [hcln, hinv, herr]
    | some lnd =>
      cases ht : lnd.trackPayment s.preimageHash with
      | ok status =>
        by_cases hs : status = PaymentStatus.FAILED
        · simp [hs, hcln, hinv, herr]
        · simp [hs, hcln, hinv, herr]
      | rpcError => simp [hcln, hinv, herr]

/-- C1 witness: the concrete expired Taproot submarine swap with no
Lightning currency entry gets a partial refund signature. -/
theorem signRefund_eligibility_witness : signRefund refundEnvEx = Except.ok () := by
  have h := signRefund_eligibility refundEnvEx
    { type := SwapType.Submarine, version := SwapVersion.Taproot,
      status := SwapUpdateEvent.SwapExpired, preimageHash := ("aa"),
      invoice := none }
    rfl (by simp [refundEnvEx])
  exact h.1.mpr ⟨rfl, by decide, Or.inl rfl⟩

/-- C10: an LND `trackPayment` RPC error in `hasNonFailedLightningPayment`
is swallowed — the helper behaves as if the currency had no LND client, so
with no CLN client it returns false and a failed-status swap stays eligible
for a cooperative refund. -/
theorem hasNonFailedLightningPayment_lnd_error_swallowed
    (currency : Currency) (swap : SwapRecord) (lnd : LndClient)
    (hlnd : currency.lndClient = some lnd)
    (herr : lnd.trackPayment swap.preimageHash = RpcResult.rpcError) :
    (hasNonFailedLightningPayment currency swap =
      hasNonFailedLightningPayment { currency with lndClient := none } swap) ∧
    (currency.clnClient = none → hasNonFailedLightningPayment currency swap = false) ∧
    (currency.clnClient = none → swap.status ∈ FailedSwapUpdateEvents →
      isEligibleForRefund swap (some currency) = true) := by
  have hfall : hasNonFailedLightningPayment currency swap =
      hasNonFailedLightningPayment { currency with lndClient := none } swap := by
    unfold hasNonFailedLightningPayment
    by_cases ht : swap.type = SwapType.Chain
    · simp [ht]
    · simp [ht, hlnd, herr]
  have hfalse : currency.clnClient = none →
      hasNonFailedLightningPayment currency swap = false := by
    intro hcln
    unfold hasNonFailedLightningPayment
    by_cases ht : swap.type = SwapType.Chain
    · simp [ht]
    · simp [ht, hlnd, herr, hcln]
  refine ⟨hfall, hfalse, ?_⟩
  intro hcln hmem
  unfold isEligibleForRefund
  simp [hmem, hfalse hcln]

/-- C10 witness: a submarine swap on a currency whose only Lightning client
is an LND client that errors on `trackPayment` shows no non-failed payment. -/
theorem hasNonFailedLightningPayment_lnd_error_witness :
    hasNonFailedLightningPayment
      { symbol := ("BTC"), chainClient := some (),
        lndClient := some { trackPayment := fun _ => RpcResult.rpcError },
        clnClient := none }
      { type := SwapType.Submarine, version := SwapVersion.Taproot,
        status := SwapUpdateEvent.SwapExpired, preimageHash := ("aa"),
        invoice := some ("lnbc1") } = false := by
  have h := hasNonFailedLightningPayment_lnd_error_swallowed
    { symbol := ("BTC"), chainClient := some (),
      lndClient := some { trackPayment := fun _ => RpcResult.rpcError },
      clnClient := none }
    { type := SwapType.Submarine, version := SwapVersion.Taproot,
      status := SwapUpdateEvent.SwapExpired, preimageHash := ("aa"),
      invoice := some ("lnbc1") }
    { trackPayment := fun _ => RpcResult.rpcError } rfl rfl
  exact h.2.1 rfl

/-- C2: `signReverseSwapClaim` on an existing reverse swap fails with
`NOT_ELIGIBLE_FOR_COOPERATIVE_CLAIM` (leaving the record unchanged) when the
swap is not Taproot or its status is not claimable; fails with
`INCORRECT_PREIMAGE` (leaving the record unchanged) when the eligibility
checks pass but the preimage does not hash to `preimageHash`; and changes
the record only by persisting a validated preimage. -/
theorem signReverseSwapClaim_guards (sha256 : String → String)
    (swap : ReverseSwapRecord) (preimage : String) :
    ((swap.version ≠ SwapVersion.Taproot ∨ swap.status ∉ reverseClaimableStatuses) →
      signReverseSwapClaim sha256 (some swap) preimage =
        { result := Except.error ClaimSignError.NOT_ELIGIBLE_FOR_COOPERATIVE_CLAIM
          swapAfter := some swap
          settledInvoice := false }) ∧
    ((swap.version = SwapVersion.Taproot ∧ swap.status ∈ reverseClaimableStatuses) →
      sha256 preimage ≠ swap.preimageHash →
      signReverseSwapClaim sha256 (some swap) preimage =
        { result := Except.error ClaimSignError.INCORRECT_PREIMAGE
          swapAfter := some swap
          settledInvoice := false }) ∧
    ((signReverseSwapClaim sha256 (some swap) preimage).swapAfter ≠ some swap →
      sha256 preimage = swap.preimageHash ∧
      (signReverseSwapClaim sha256 (some swap) preimage).swapAfter =
        some { swap with preimage := some preimage }) := by
  have hred : signReverseSwapClaim sha256 (some swap) preimage =
      (if swap.version ≠ SwapVersion.Taproot ∨ swap.status ∉ reverseClaimableStatuses then
        { result := Except.error ClaimSignError.NOT_ELIGIBLE_FOR_COOPERATIVE_CLAIM
          swapAfter := some swap
          settledInvoice := false }
      else if sha256 preimage ≠ swap.preimageHash then
        { result := Except.error ClaimSignError.INCORRECT_PREIMAGE
          swapAfter := some swap
          settledInvoice := false }
      else
        { result := Except.ok ()
          swapAfter := some { swap with preimage := some preimage }
          settledInvoice := decide (swap.status ≠ SwapUpdateEvent.InvoiceSettled) }) := rfl
  refine ⟨?_, ?_, ?_⟩
  · intro hc
    rw [hred, if_pos hc]
  · rintro ⟨hv, hs⟩ hp
    rw [hred, if_neg (by simp [hv, hs]), if_pos hp]
  · intro hchanged
    rw [hred] at hchanged ⊢
    by_cases hc : swap.version ≠ SwapVersion.Taproot ∨ swap.status ∉ reverseClaimableStatuses
    · rw [if_pos hc] at hchanged
      exact absurd rfl hchanged
    · rw [if_neg hc] at hchanged ⊢
      by_cases hp : sha256 preimage ≠ swap.preimageHash
      · rw [if_pos hp] at hchanged
        exact absurd rfl hchanged
      · rw [if_neg hp] at hchanged ⊢
        push_neg at hp
        exact ⟨hp, rfl⟩

/-- C2 witness: a Taproot reverse swap in `TransactionMempool` with a wrong
preimage fails with `INCORRECT_PREIMAGE` and keeps its record unchanged. -/
theorem signReverseSwapClaim_guards_witness :
    signReverseSwapClaim (fun _ => ("00"))
      (some { version := SwapVersion.Taproot,
              status := SwapUpdateEvent.TransactionMempool,
              preimageHash := ("ff"), preimage := none })
      ("aa") =
      { result := Except.error ClaimSignError.INCORRECT_PREIMAGE
        swapAfter := some { version := SwapVersion.Taproot,
                            status := SwapUpdateEvent.TransactionMempool,
                            preimageHash := ("ff"), preimage := none }
        settledInvoice := false } := by
  have h := signReverseSwapClaim_guards (fun _ => ("00"))
    { version := SwapVersion.Taproot, status := SwapUpdateEvent.TransactionMempool,
      preimageHash := ("ff"), preimage := none } ("aa")
  exact h.2.1 ⟨rfl, by decide⟩ (by decide)

/-- C3 (amended): with configured limits, `verifyAmount` normalizes the
amount with `floor(amount·rate)` exactly for `(kind ≠ Reverse ∧ side = BUY)
∨ (kind = Reverse ∧ side = SELL)`, fails with `EXCEED_MAXIMAL_AMOUNT` iff
the normalized amount exceeds the maximal limit, fails with
`BENEATH_MINIMAL_AMOUNT` iff it is beneath the minimal limit while within
the maximal one (the maximal check runs first), and accepts iff it lies in
`[minimal, maximal]`. -/
theorem verifyAmount_bounds (l : PairLimits) (rate : ℚ) (amount : Int)
    (orderSide : OrderSide) (type : SwapType) :
    (verifyAmount (some l) rate amount orderSide type =
        Except.error ServiceError.EXCEED_MAXIMAL_AMOUNT ↔
      l.maximal < normalizeAmount rate amount orderSide type) ∧
    (verifyAmount (some l) rate amount orderSide type =
        Except.error ServiceError.BENEATH_MINIMAL_AMOUNT ↔
      (normalizeAmount rate amount orderSide type < l.minimal ∧
        normalizeAmount rate amount orderSide type ≤ l.maximal)) ∧
    (verifyAmount (some l) rate amount orderSide type = Except.ok () ↔
      (l.minimal ≤ normalizeAmount rate amount orderSide type ∧
        normalizeAmount rate amount orderSide type ≤ l.maximal)) := by
  have hVA : verifyAmount (some l) rate amount orderSide type =
      (if l.maximal < normalizeAmount rate amount orderSide type then
        Except.error ServiceError.EXCEED_MAXIMAL_AMOUNT
      else if normalizeAmount rate amount orderSide type < l.minimal then
        Except.error ServiceError.BENEATH_MINIMAL_AMOUNT
      else Except.ok ()) := by
    simp only [verifyAmount, normalizeAmount]
    by_cases hc : (¬type = SwapType.ReverseSubmarine ∧ orderSide = OrderSide.BUY) ∨
        (type = SwapType.ReverseSubmarine ∧ orderSide = OrderSide.SELL)
    · simp only [if_pos hc, Int.floor_intCast, Int.ceil_intCast, gt_iff_lt]
    · simp only [if_neg hc, Int.floor_intCast, Int.ceil_intCast, gt_iff_lt]
  rw [hVA]
  split_ifs with h1 h2
  · refine ⟨?_, ?_, ?_⟩ <;> simp <;> omega
  · refine ⟨?_, ?_, ?_⟩ <;> simp <;> omega
  · refine ⟨?_, ?_, ?_⟩ <;> simp <;> omega

/-- C3 counterexample: with `minimal = 10 > maximal = 1` and normalized
amount 5, both bounds are violated; the code fails with
`EXCEED_MAXIMAL_AMOUNT`, so the claim's "fails with
`BENEATH_MINIMAL_AMOUNT` iff `ceil(amount) < limits.minimal`" is false. -/
theorem verifyAmount_beneath_iff_counterexample :
    verifyAmount (some { minimal := 10, maximal := 1 }) 1 5 OrderSide.SELL
        SwapType.Submarine = Except.error ServiceError.EXCEED_MAXIMAL_AMOUNT ∧
    ¬(verifyAmount (some { minimal := 10, maximal := 1 }) 1 5 OrderSide.SELL
          SwapType.Submarine = Except.error ServiceError.BENEATH_MINIMAL_AMOUNT ↔
        ⌈((5 : Int) : ℚ)⌉ < (10 : Int)) := by
  have h : verifyAmount (some { minimal := 10, maximal := 1 }) 1 5 OrderSide.SELL
      SwapType.Submarine = Except.error ServiceError.EXCEED_MAXIMAL_AMOUNT := by
    simp [verifyAmount]
  refine ⟨h, ?_⟩
  rw [h]
  simp [Int.ceil_intCast]

/-- C4: a reverse-swap creation that passes amount verification computes
`onchainAmount = floor(invoiceAmount·rate) − (baseFee + percentageFee)`,
fails with `ONCHAIN_AMOUNT_TOO_LOW` iff that value is below 1, and every
created reverse swap satisfies `onchainAmount ≥ 1` and
`onchainAmount + baseFee + percentageFee ≤ invoiceAmount·rate`. -/
theorem createReverseSwap_amounts (limits : Option PairLimits) (rate : ℚ)
    (orderSide : OrderSide) (invoiceAmount baseFee percentageFee : Int)
    (hverify : verifyAmount limits rate invoiceAmount orderSide
      SwapType.ReverseSubmarine = Except.ok ()) :
    (createReverseSwap true limits rate orderSide invoiceAmount baseFee percentageFee =
        Except.error ServiceError.ONCHAIN_AMOUNT_TOO_LOW ↔
      ⌊(invoiceAmount : ℚ) * rate⌋ - (baseFee + percentageFee) < 1) ∧
    (∀ v : Int,
      createReverseSwap true limits rate orderSide invoiceAmount baseFee percentageFee =
        Except.ok v →
      v = ⌊(invoiceAmount : ℚ) * rate⌋ - (baseFee + percentageFee) ∧ 1 ≤ v ∧
        (v : ℚ) + (baseFee : ℚ) + (percentageFee : ℚ) ≤ (invoiceAmount : ℚ) * rate) := by
  have hred : createReverseSwap true limits rate orderSide invoiceAmount baseFee
      percentageFee =
      (if (⌊(invoiceAmount : ℚ) * rate⌋ - (baseFee + percentageFee) : Int) < 1 then
        Except.error ServiceError.ONCHAIN_AMOUNT_TOO_LOW
      else Except.ok (⌊(invoiceAmount : ℚ) * rate⌋ - (baseFee + percentageFee))) := by
    unfold createReverseSwap
    rw [if_neg (by simp), hverify]
  refine ⟨?_, ?_⟩
  · rw [hred]
    split_ifs with h
    · exact iff_of_true rfl h
    · exact iff_of_false (by simp) h
  · intro v hv
    rw [hred] at hv
    split_ifs at hv with h
    have hvx : ⌊(invoiceAmount : ℚ) * rate⌋ - (baseFee + percentageFee) = v := by
      simpa using hv
    refine ⟨hvx.symm, by omega, ?_⟩
    rw [← hvx]
    push_cast
    have hfl := Int.floor_le ((invoiceAmount : ℚ) * rate)
    linarith

/-- C4 witness: invoice amount 100000 at rate 0.99 with fees 500 + 1000
creates a reverse swap with onchain amount 97500, and the fee equation
holds. -/
theorem createReverseSwap_amounts_witness :
    createReverseSwap true (some { minimal := 1, maximal := 10000000 }) (99 / 100)
      OrderSide.BUY 100000 500 1000 = Except.ok 97500 ∧
    ((97500 : Int) : ℚ) + ((500 : Int) : ℚ) + ((1000 : Int) : ℚ) ≤
      ((100000 : Int) : ℚ) * (99 / 100) := by
  have hv : verifyAmount (some { minimal := 1, maximal := 10000000 }) (99 / 100)
      100000 OrderSide.BUY SwapType.ReverseSubmarine = Except.ok () := by
    norm_num [verifyAmount]
    rw [if_neg (by simp : ¬(OrderSide.BUY = OrderSide.SELL))]
    norm_num
  have heval : createReverseSwap true (some { minimal := 1, maximal := 10000000 })
      (99 / 100) OrderSide.BUY 100000 500 1000 = Except.ok 97500 := by
    unfold createReverseSwap
    rw [if_neg (by simp), hv]
    norm_num
  have h := createReverseSwap_amounts (some { minimal := 1, maximal := 10000000 })
    (99 / 100) OrderSide.BUY 100000 500 1000 hv
  exact ⟨heval, (h.2 97500 heval).2.2⟩

/-- C5: a submarine timeout query with an invoice returns
`(chainΔ.swapMaximal, false)` on the `noRoutes` sentinel; otherwise, with
`routeDeltaMinutes = ceil((routeTimeLock − lnBlocks)·blockTime[ln])`,
`minTimeout = ceil((routeDeltaMinutes + 60) / blockTime[chain])`, it fails
with `MIN_EXPIRY_TOO_BIG` iff `minTimeout > chainΔ.swapMaximal` and
otherwise returns `(max(chainΔ.swapMinimal, minTimeout), true)`. -/
theorem getTimeoutInvoice_spec (chainCurrency lightningCurrency : String)
    (chainTimeout : PairTimeoutBlocksDelta) (routeTimeLock lnBlocks : Int) :
    (routeTimeLock = noRoutes →
      getTimeoutInvoice chainCurrency lightningCurrency chainTimeout routeTimeLock
        lnBlocks = Except.ok (chainTimeout.swapMaximal, false)) ∧
    (routeTimeLock ≠ noRoutes →
      (⌈((⌈((routeTimeLock - lnBlocks : Int) : ℚ) * getBlockTime lightningCurrency⌉ +
            60 : Int) : ℚ) / getBlockTime chainCurrency⌉ > chainTimeout.swapMaximal →
        getTimeoutInvoice chainCurrency lightningCurrency chainTimeout routeTimeLock
          lnBlocks = Except.error (TimeoutError.MIN_EXPIRY_TOO_BIG
            ⌈(chainTimeout.swapMaximal : ℚ) * getBlockTime chainCurrency⌉
            ⌈((routeTimeLock - lnBlocks : Int) : ℚ) * getBlockTime lightningCurrency⌉)) ∧
      (¬(⌈((⌈((routeTimeLock - lnBlocks : Int) : ℚ) * getBlockTime lightningCurrency⌉ +
            60 : Int) : ℚ) / getBlockTime chainCurrency⌉ > chainTimeout.swapMaximal) →
        getTimeoutInvoice chainCurrency lightningCurrency chainTimeout routeTimeLock
          lnBlocks = Except.ok (max chainTimeout.swapMinimal
            ⌈((⌈((routeTimeLock - lnBlocks : Int) : ℚ) * getBlockTime lightningCurrency⌉ +
              60 : Int) : ℚ) / getBlockTime chainCurrency⌉, true))) := by
  refine ⟨?_, ?_⟩
  · intro hnr
    unfold getTimeoutInvoice
    rw [if_pos hnr]
  · intro hnr
    simp only [getTimeoutInvoice, routingOffset]
    rw [if_neg hnr]
    constructor
    · intro hgt
      rw [if_pos hgt]
    · intro hle
      rw [if_neg hle]

/-- C5 witness: a route needing 400 extra BTC blocks (4000 minutes) against
`swapMaximal = 144` BTC blocks fails with `MIN_EXPIRY_TOO_BIG 1440 4000`. -/
theorem getTimeoutInvoice_spec_witness :
    getTimeoutInvoice ("BTC") ("BTC")
      { reverse := 144, swapMinimal := 36, swapMaximal := 144 } 400 0 =
      Except.error (TimeoutError.MIN_EXPIRY_TOO_BIG 1440 4000) := by
  have h := (getTimeoutInvoice_spec ("BTC") ("BTC")
    { reverse := 144, swapMinimal := 36, swapMaximal := 144 } 400 0).2
    (by norm_num [noRoutes])
  have hbt : getBlockTime ("BTC") = 10 := by norm_num [getBlockTime]
  have h1 : (⌈((400 - 0 : Int) : ℚ) * getBlockTime ("BTC")⌉ : Int) = 4000 := by
    rw [hbt, Int.ceil_eq_iff]
    norm_num
  have hgt : ⌈((⌈((400 - 0 : Int) : ℚ) * getBlockTime ("BTC")⌉ + 60 : Int) : ℚ) /
      getBlockTime ("BTC")⌉ >
      ({ reverse := 144, swapMinimal := 36, swapMaximal := 144 } :
        PairTimeoutBlocksDelta).swapMaximal := by
    rw [h1, hbt]
    have h2 : (⌈((4000 + 60 : Int) : ℚ) / (10 : ℚ)⌉ : Int) = 406 := by
      rw [Int.ceil_eq_iff]
      norm_num
    rw [h2]
    norm_num
  have hres := h.1 hgt
  rw [h1] at hres
  have h4 : (⌈((({ reverse := 144, swapMinimal := 36, swapMaximal := 144 } :
      PairTimeoutBlocksDelta).swapMaximal : Int) : ℚ) * getBlockTime ("BTC")⌉ : Int) =
      1440 := by
    rw [hbt, Int.ceil_eq_iff]
    norm_num
  rw [h4] at hres
  exact hres

/-- Every block time in the table (and the ERC20 fallback) is positive. -/
theorem getBlockTime_pos (symbol : String) : 0 < getBlockTime symbol := by
  unfold getBlockTime
  split_ifs <;> norm_num

/-- C6: `convertBlocks(c, l, b)` equals `ceil(b·blockTime[c] / blockTime[l])`
and is the least integer `n` with `n·blockTime[l] ≥ b·blockTime[c]`. -/
theorem convertBlocks_ceil_least (c l : String) (b : Int) (hb : 0 ≤ b) :
    convertBlocks c l b = ⌈((b : ℚ) * getBlockTime c) / getBlockTime l⌉ ∧
    (b : ℚ) * getBlockTime c ≤ (convertBlocks c l b : ℚ) * getBlockTime l ∧
    (∀ n : Int, (b : ℚ) * getBlockTime c ≤ (n : ℚ) * getBlockTime l →
      convertBlocks c l b ≤ n) := by
  have hpos := getBlockTime_pos l
  unfold convertBlocks
  refine ⟨rfl, ?_, ?_⟩
  · have h1 := Int.le_ceil (((b : ℚ) * getBlockTime c) / getBlockTime l)
    rw [div_le_iff₀ hpos] at h1
    exact h1
  · intro n hn
    rw [Int.ceil_le, div_le_iff₀ hpos]
    exact hn

/-- C6 witness: 3 BTC blocks are 30 minutes, which is 12 LTC blocks, and 12
is minimal. -/
theorem convertBlocks_ceil_least_witness :
    convertBlocks ("BTC") ("LTC") 3 = 12 ∧ convertBlocks ("BTC") ("LTC") 3 ≤ 12 := by
  have h := convertBlocks_ceil_least ("BTC") ("LTC") 3 (by norm_num)
  have hbtc : getBlockTime ("BTC") = 10 := by
    unfold getBlockTime
    rw [if_pos rfl]
  have hltc : getBlockTime ("LTC") = 5 / 2 := by
    unfold getBlockTime
    rw [if_neg (by decide), if_pos rfl]
  have hval : convertBlocks ("BTC") ("LTC") 3 = 12 := by
    rw [h.1, hbtc, hltc, Int.ceil_eq_iff]
    norm_num
  exact ⟨hval, h.2.2 12 (by rw [hbtc, hltc] ; norm_num)⟩

/-- C7 (amended): a submarine-swap creation that passes verification hands
`ceil(invoiceAmount·rate) + baseFee + percentageFee` to the swap manager and
returns it to the caller as `expectedAmount`; the record handed to
`addSwap`, however, contains no `expectedAmount` field. -/
theorem createSwap_expectedAmount (limits : Option PairLimits) (rate : ℚ)
    (orderSide : OrderSide) (invoiceAmount baseFee percentageFee : Int)
    (acceptZeroConfAt : Int → Bool) (id invoice pairId : String)
    (mgr : MgrSwapResult)
    (hverify : verifyAmount limits rate invoiceAmount orderSide
      SwapType.Submarine = Except.ok ()) :
    ∀ o : CreateSwapOutcome,
      createSwap false limits rate orderSide invoiceAmount baseFee percentageFee
        acceptZeroConfAt id invoice pairId mgr = Except.ok o →
      o.managerExpectedAmount = ⌈(invoiceAmount : ℚ) * rate⌉ + baseFee + percentageFee ∧
      o.responseExpectedAmount = ⌈(invoiceAmount : ℚ) * rate⌉ + baseFee + percentageFee ∧
      o.responseTimeoutBlockHeight = mgr.timeoutBlockHeight ∧
      o.persisted.lookup ("expectedAmount") = none := by
  intro o ho
  have hred : createSwap false limits rate orderSide invoiceAmount baseFee
      percentageFee acceptZeroConfAt id invoice pairId mgr = Except.ok
      { managerExpectedAmount := ⌈(invoiceAmount : ℚ) * rate⌉ + baseFee + percentageFee
        persisted :=
          [(("id"), FieldVal.str id),
           (("invoice"), FieldVal.str invoice),
           (("keyIndex"), FieldVal.int mgr.keyIndex),
           (("redeemScript"), FieldVal.str mgr.redeemScript),
           (("acceptZeroConf"), FieldVal.bool
             (acceptZeroConfAt (⌈(invoiceAmount : ℚ) * rate⌉ + baseFee + percentageFee))),
           (("timeoutBlockHeight"), FieldVal.int mgr.timeoutBlockHeight),
           (("pair"), FieldVal.str pairId),
           (("orderSide"), FieldVal.int (orderSideNum orderSide)),
           (("fee"), FieldVal.int percentageFee),
           (("lockupAddress"), FieldVal.str mgr.address)]
        responseExpectedAmount := ⌈(invoiceAmount : ℚ) * rate⌉ + baseFee + percentageFee
        responseTimeoutBlockHeight := mgr.timeoutBlockHeight } := by
    unfold createSwap
    rw [if_neg (by simp), hverify]
  rw [hred] at ho
  injection ho with ho'
  subst ho'
  refine ⟨rfl, rfl, rfl, ?_⟩
  simp [List.lookup]

/-- Amount verification passes for the concrete scenario used to evaluate
`createSwap`: invoice amount 100000 at rate 1 within limits [1, 100000000]. -/
theorem verifyAmountEx :
    verifyAmount (some { minimal := 1, maximal := 100000000 }) 1 100000
      OrderSide.BUY SwapType.Submarine = Except.ok () := by
  simp [verifyAmount]

/-- Concrete evaluation of `createSwap` for the C7 scenario: invoice amount
100000, rate 1, fees 500 and 1000. -/
theorem createSwapEx_eval :
    createSwap false (some { minimal := 1, maximal := 100000000 }) 1 OrderSide.BUY
      100000 500 1000 (fun _ => true) ("swapid") ("lnbc1") ("BTC/BTC")
      { address := ("addr"), keyIndex := 1, redeemScript := ("script"),
        timeoutBlockHeight := 600000 } = Except.ok
      { managerExpectedAmount := 101500
        persisted :=
          [(("id"), FieldVal.str ("swapid")),
           (("invoice"), FieldVal.str ("lnbc1")),
           (("keyIndex"), FieldVal.int 1),
           (("redeemScript"), FieldVal.str ("script")),
           (("acceptZeroConf"), FieldVal.bool true),
           (("timeoutBlockHeight"), FieldVal.int 600000),
           (("pair"), FieldVal.str ("BTC/BTC")),
           (("orderSide"), FieldVal.int 0),
           (("fee"), FieldVal.int 1000),
           (("lockupAddress"), FieldVal.str ("addr"))]
        responseExpectedAmount := 101500
        responseTimeoutBlockHeight := 600000 } := by
  unfold createSwap
  rw [if_neg (by simp), verifyAmountEx]
  norm_num [orderSideNum]

/-- C7 counterexample: in the concrete scenario the response and manager
amounts are 101500, but the persisted record has no `expectedAmount` field,
so the claim's "the expectedAmount persisted ... equals
ceil(invoiceAmount·rate) + baseFee + percentageFee" is false. -/
theorem createSwap_persisted_counterexample :
    (createSwap false (some { minimal := 1, maximal := 100000000 }) 1 OrderSide.BUY
        100000 500 1000 (fun _ => true) ("swapid") ("lnbc1") ("BTC/BTC")
        { address := ("addr"), keyIndex := 1, redeemScript := ("script"),
          timeoutBlockHeight := 600000 }).map
      (fun o => o.responseExpectedAmount) = Except.ok 101500 ∧
    (createSwap false (some { minimal := 1, maximal := 100000000 }) 1 OrderSide.BUY
        100000 500 1000 (fun _ => true) ("swapid") ("lnbc1") ("BTC/BTC")
        { address := ("addr"), keyIndex := 1, redeemScript := ("script"),
          timeoutBlockHeight := 600000 }).map
      (fun o => o.persisted.lookup ("expectedAmount")) = Except.ok none := by
  rw [createSwapEx_eval]
  constructor
  · rfl
  · simp [Except.map, List.lookup]

/-- C7 witness: the amended claim evaluated at the concrete scenario, giving
manager and response amounts 101500 and no persisted `expectedAmount`. -/
theorem createSwap_expectedAmount_witness :
    (createSwap false (some { minimal := 1, maximal := 100000000 }) 1 OrderSide.BUY
        100000 500 1000 (fun _ => true) ("swapid") ("lnbc1") ("BTC/BTC")
        { address := ("addr"), keyIndex := 1, redeemScript := ("script"),
          timeoutBlockHeight := 600000 }).map
      (fun o => o.managerExpectedAmount) = Except.ok 101500 ∧
    (⌈((100000 : Int) : ℚ) * 1⌉ + 500 + 1000 : Int) = 101500 := by
  have h := createSwap_expectedAmount (some { minimal := 1, maximal := 100000000 })
    1 OrderSide.BUY 100000 500 1000 (fun _ => true) ("swapid") ("lnbc1")
    ("BTC/BTC")
    { address := ("addr"), keyIndex := 1, redeemScript := ("script"),
      timeoutBlockHeight := 600000 } verifyAmountEx
  obtain ⟨hm, _, _, _⟩ := h _ createSwapEx_eval
  constructor
  · rw [createSwapEx_eval]
    simp [Except.map]
  · rw [← hm]

/-- `calculateBlocks` succeeds exactly when the minutes divided by the block
time give an integer at least 1. -/
theorem calculateBlocks_isOk_iff (symbol : String) (minutes : ℚ) :
    (calculateBlocks symbol minutes).isOk = true ↔
      ((minutes / getBlockTime symbol).den = 1 ∧ 1 ≤ minutes / getBlockTime symbol) := by
  simp only [calculateBlocks]
  split_ifs with h
  · apply iff_of_false
    · simp [Except.isOk, Except.toBool]
    · rintro ⟨h1, h2⟩
      rcases h with h' | h'
      · exact h' h1
      · exact absurd h2 (not_le.mpr h')
  · apply iff_of_true
    · rfl
    · push_neg at h
      exact h

/-- `calculateBlocks` throws only `INVALID_TIMEOUT_BLOCK_DELTA`. -/
theorem calculateBlocks_error_eq (symbol : String) (minutes : ℚ) (e : TimeoutError) :
    calculateBlocks symbol minutes = Except.error e →
      e = TimeoutError.INVALID_TIMEOUT_BLOCK_DELTA := by
  simp only [calculateBlocks]
  split_ifs with h
  · intro hh
    injection hh with hh'
    exact hh'.symm
  · intro hh
    simp at hh

/-- `convertToBlocks` succeeds exactly when all three per-symbol conversions
succeed. -/
theorem convertToBlocks_isOk_eq (symbol : String) (nd : PairTimeoutMinutes) :
    (convertToBlocks symbol nd).isOk =
      ((calculateBlocks symbol nd.reverse).isOk &&
       (calculateBlocks symbol nd.swapMinimal).isOk &&
       (calculateBlocks symbol nd.swapMaximal).isOk) := by
  unfold convertToBlocks
  cases calculateBlocks symbol nd.reverse <;>
    cases calculateBlocks symbol nd.swapMinimal <;>
      cases calculateBlocks symbol nd.swapMaximal <;>
        simp [Except.isOk, Except.toBool]

/-- `convertToBlocks` throws only `INVALID_TIMEOUT_BLOCK_DELTA`. -/
theorem convertToBlocks_error_eq (symbol : String) (nd : PairTimeoutMinutes)
    (e : TimeoutError) :
    convertToBlocks symbol nd = Except.error e →
      e = TimeoutError.INVALID_TIMEOUT_BLOCK_DELTA := by
  unfold convertToBlocks
  cases h1 : calculateBlocks symbol nd.reverse with
  | error e1 =>
    intro hh
    injection hh with hh'
    exact hh' ▸ calculateBlocks_error_eq symbol nd.reverse e1 h1
  | ok r =>
    cases h2 : calculateBlocks symbol nd.swapMinimal with
    | error e2 =>
      intro hh
      injection hh with hh'
      exact hh' ▸ calculateBlocks_error_eq symbol nd.swapMinimal e2 h2
    | ok mn =>
      cases h3 : calculateBlocks symbol nd.swapMaximal with
      | error e3 =>
        intro hh
        injection hh with hh'
        exact hh' ▸ calculateBlocks_error_eq symbol nd.swapMaximal e3 h3
      | ok mx =>
        intro hh
        simp at hh

/-- `convertToBlocks` succeeds exactly when every minute value divided by
the symbol's block time is an integer at least 1. -/
theorem convertToBlocks_isOk_iff (symbol : String) (nd : PairTimeoutMinutes) :
    (convertToBlocks symbol nd).isOk = true ↔
      (∀ m ∈ [nd.reverse, nd.swapMinimal, nd.swapMaximal],
        (m / getBlockTime symbol).den = 1 ∧ 1 ≤ m / getBlockTime symbol) := by
  rw [convertToBlocks_isOk_eq, Bool.and_eq_true, Bool.and_eq_true,
    calculateBlocks_isOk_iff, calculateBlocks_isOk_iff, calculateBlocks_isOk_iff]
  constructor
  · rintro ⟨⟨hr, hmn⟩, hmx⟩ m hm
    simp only [List.mem_cons, List.not_mem_nil, or_false] at hm
    rcases hm with rfl | rfl | rfl
    · exact hr
    · exact hmn
    · exact hmx
  · intro hall
    exact ⟨⟨hall _ (by simp), hall _ (by simp)⟩, hall _ (by simp)⟩

/-- `minutesToBlocks` succeeds exactly when both sides' conversions do. -/
theorem minutesToBlocks_isOk_eq (pair : String) (nd : PairTimeoutMinutes) :
    (minutesToBlocks pair nd).isOk =
      ((convertToBlocks (splitPairId pair).1 nd).isOk &&
       (convertToBlocks (splitPairId pair).2 nd).isOk) := by
  simp only [minutesToBlocks]
  cases convertToBlocks (splitPairId pair).1 nd <;>
    cases convertToBlocks (splitPairId pair).2 nd <;>
      simp [Except.isOk, Except.toBool]

/-- `minutesToBlocks` throws only `INVALID_TIMEOUT_BLOCK_DELTA`. -/
theorem minutesToBlocks_error_eq (pair : String) (nd : PairTimeoutMinutes)
    (e : TimeoutError) :
    minutesToBlocks pair nd = Except.error e →
      e = TimeoutError.INVALID_TIMEOUT_BLOCK_DELTA := by
  simp only [minutesToBlocks]
  cases h1 : convertToBlocks (splitPairId pair).1 nd with
  | error e1 =>
    intro hh
    injection hh with hh'
    exact hh' ▸ convertToBlocks_error_eq (splitPairId pair).1 nd e1 h1
  | ok b =>
    cases h2 : convertToBlocks (splitPairId pair).2 nd with
    | error e2 =>
      intro hh
      injection hh with hh'
      exact hh' ▸ convertToBlocks_error_eq (splitPairId pair).2 nd e2 h2
    | ok q =>
      intro hh
      simp at hh

/-- C8: a timeout-delta configuration is accepted exactly when each of the
three minute values, divided by the block time of the base symbol and of
the quote symbol, is an integer at least 1; any other configuration fails
with `INVALID_TIMEOUT_BLOCK_DELTA`; and a legacy single-number
`timeoutDelta` is first expanded to the table with all three values equal
to it, both by `expandTimeoutDelta` and inside `init`. -/
theorem minutesToBlocks_spec (pair : String) (nd : PairTimeoutMinutes) :
    ((minutesToBlocks pair nd).isOk = true ↔
      (∀ s ∈ [(splitPairId pair).1, (splitPairId pair).2],
        ∀ m ∈ [nd.reverse, nd.swapMinimal, nd.swapMaximal],
          (m / getBlockTime s).den = 1 ∧ 1 ≤ m / getBlockTime s)) ∧
    ((minutesToBlocks pair nd).isOk = false →
      minutesToBlocks pair nd = Except.error TimeoutError.INVALID_TIMEOUT_BLOCK_DELTA) ∧
    (∀ m : ℚ, expandTimeoutDelta (Sum.inl m) =
      { reverse := m, swapMinimal := m, swapMaximal := m }) ∧
    (∀ (p : ConfigPair) (m : ℚ) (rest : List ConfigPair),
      p.timeoutDelta = some (Sum.inl m) →
      tdInit (p :: rest) =
        tdInit
          ({ p with
              timeoutDelta := some (Sum.inr
                { reverse := m, swapMinimal := m, swapMaximal := m }) } :: rest)) := by
  refine ⟨?_, ?_, fun m => rfl, ?_⟩
  · rw [minutesToBlocks_isOk_eq, Bool.and_eq_true, convertToBlocks_isOk_iff,
      convertToBlocks_isOk_iff]
    constructor
    · rintro ⟨hb, hq⟩ s hs
      simp only [List.mem_cons, List.not_mem_nil, or_false] at hs
      rcases hs with rfl | rfl
      · exact hb
      · exact hq
    · intro hall
      exact ⟨hall _ (by simp), hall _ (by simp)⟩
  · intro hfalse
    cases hres : minutesToBlocks pair nd with
    | ok v =>
      rw [hres] at hfalse
      simp [Except.isOk, Except.toBool] at hfalse
    | error e =>
      rw [minutesToBlocks_error_eq pair nd e hres]
  · intro p m rest htd
    unfold tdInit
    rw [htd]
    rfl

/-- C8 witness: the pair `L-BTC/L-BTC` (block time 1) with minute deltas
1440/240/1440 is accepted. -/
theorem minutesToBlocks_spec_witness :
    (minutesToBlocks ("L-BTC/L-BTC")
      { reverse := 1440, swapMinimal := 240, swapMaximal := 1440 }).isOk = true := by
  have hbt : getBlockTime ("L-BTC") = 1 := by
    unfold getBlockTime
    rw [if_neg (by decide), if_neg (by decide), if_neg (by decide), if_pos rfl]
  apply (minutesToBlocks_spec ("L-BTC/L-BTC")
    { reverse := 1440, swapMinimal := 240, swapMaximal := 1440 }).1.mpr
  intro s hs m hm
  have hsplit1 : (splitPairId ("L-BTC/L-BTC")).1 = ("L-BTC") := rfl
  have hsplit2 : (splitPairId ("L-BTC/L-BTC")).2 = ("L-BTC") := rfl
  rw [hsplit1, hsplit2] at hs
  simp only [List.mem_cons, List.not_mem_nil, or_false] at hs hm
  rcases hs with rfl | rfl <;>
    · rw [hbt]
      rcases hm with rfl | rfl | rfl <;> norm_num

/-- The `setTimeout` pairs loop relates every old entry to its successor by
`pairPreserved`: all fields kept, `timeoutDelta` reassigned only on the
matching pair id. -/
theorem updatePairs_preserves (pairId : String) (nd : PairTimeoutMinutes) :
    ∀ ps : List ConfigPair,
      List.Forall₂ (pairPreserved pairId nd) ps (updatePairs ps pairId nd) := by
  intro ps
  induction ps with
  | nil => exact List.Forall₂.nil
  | cons p rest ih =>
    unfold updatePairs
    split_ifs with h
    · refine List.Forall₂.cons ⟨rfl, rfl, rfl, rfl, Or.inr ⟨h, rfl⟩⟩ ?_
      exact List.forall₂_same.mpr (fun x _ => ⟨rfl, rfl, rfl, rfl, Or.inl rfl⟩)
    · exact List.Forall₂.cons ⟨rfl, rfl, rfl, rfl, Or.inl rfl⟩ ih

/-- C9 (amended): for a known pair whose new deltas convert, `setTimeout`
succeeds, changes only the matching pair's `timeoutDelta` in the
configuration (path, remaining fields and all other pairs preserved),
updates the in-memory map at that pair id, and rewrites the config file
with one direct `fs.writeFileSync` of the full serialized configuration
(not a write-temp-file-then-rename); for an unknown pair it fails with
`PAIR_NOT_FOUND` and leaves state and filesystem untouched. -/
theorem setTimeout_spec (st : TdpState) (pairId : String) (nd : PairTimeoutMinutes) :
    ((st.timeoutDeltas.lookup pairId).isSome = true →
      ∀ blocks, minutesToBlocks pairId nd = Except.ok blocks →
        (setTimeout st pairId nd).1 = Except.ok () ∧
        (setTimeout st pairId nd).2.1.config.configpath = st.config.configpath ∧
        (setTimeout st pairId nd).2.1.config.extra = st.config.extra ∧
        List.Forall₂ (pairPreserved pairId nd) st.config.pairs
          (setTimeout st pairId nd).2.1.config.pairs ∧
        (setTimeout st pairId nd).2.1.timeoutDeltas =
          setAssoc st.timeoutDeltas pairId blocks ∧
        (setTimeout st pairId nd).2.2 =
          [FsOp.write st.config.configpath
            (serializeConfig (setTimeout st pairId nd).2.1.config)]) ∧
    (st.timeoutDeltas.lookup pairId = none →
      setTimeout st pairId nd = (Except.error TimeoutError.PAIR_NOT_FOUND, st, [])) := by
  constructor
  · intro hsome blocks hblocks
    obtain ⟨v, hv⟩ := Option.isSome_iff_exists.mp hsome
    have hred : setTimeout st pairId nd =
        (Except.ok (),
         { timeoutDeltas := setAssoc st.timeoutDeltas pairId blocks
           config := { st.config with pairs := updatePairs st.config.pairs pairId nd } },
         [FsOp.write st.config.configpath
           (serializeConfig
             { st.config with pairs := updatePairs st.config.pairs pairId nd })]) := by
      unfold setTimeout
      rw [hv, hblocks]
    rw [hred]
    exact ⟨rfl, rfl, rfl, updatePairs_preserves pairId nd st.config.pairs, rfl, rfl⟩
  · intro hnone
    unfold setTimeout
    rw [hnone]

/-- Concrete evaluation of `minutesToBlocks` for the C9 scenario: the
`L-BTC/L-BTC` pair with minute deltas 1440/240/1440 at block time 1. -/
theorem minutesToBlocksEx_eval :
    minutesToBlocks ("L-BTC/L-BTC")
      { reverse := 1440, swapMinimal := 240, swapMaximal := 1440 } =
      Except.ok
        { base := { reverse := 1440, swapMinimal := 240, swapMaximal := 1440 }
          quote := { reverse := 1440, swapMinimal := 240, swapMaximal := 1440 } } := by
  have hbt : getBlockTime ("L-BTC") = 1 := by
    unfold getBlockTime
    rw [if_neg (by decide), if_neg (by decide), if_neg (by decide), if_pos rfl]
  have hc : ∀ m : ℚ, m.den = 1 → 1 ≤ m →
      calculateBlocks ("L-BTC") m = Except.ok m.num := by
    intro m h1 h2
    simp only [calculateBlocks]
    rw [hbt, div_one]
    rw [if_neg (by push_neg ; exact ⟨h1, h2⟩)]
  have h1440 : calculateBlocks ("L-BTC") 1440 = Except.ok 1440 := by
    rw [hc 1440 (by norm_num) (by norm_num)]
    norm_num
  have h240 : calculateBlocks ("L-BTC") 240 = Except.ok 240 := by
    rw [hc 240 (by norm_num) (by norm_num)]
    norm_num
  simp only [minutesToBlocks, convertToBlocks]
  rw [show (splitPairId ("L-BTC/L-BTC")).1 = ("L-BTC") from rfl,
    show (splitPairId ("L-BTC/L-BTC")).2 = ("L-BTC") from rfl]
  norm_num [h1440, h240]

/-- C9 counterexample: the concrete `setTimeout` call succeeds but performs
a single direct write of the config path — not the write-temp-file-then-
rename discipline the claim asserts. -/
theorem setTimeout_not_atomic_counterexample :
    (setTimeout tdpStateEx ("L-BTC/L-BTC")
      { reverse := 1440, swapMinimal := 240, swapMaximal := 1440 }).1 = Except.ok () ∧
    ((setTimeout tdpStateEx ("L-BTC/L-BTC")
      { reverse := 1440, swapMinimal := 240, swapMaximal := 1440 }).2.2).length = 1 ∧
    isTempRenameWrite (tdpStateEx.config.configpath)
      (setTimeout tdpStateEx ("L-BTC/L-BTC")
        { reverse := 1440, swapMinimal := 240, swapMaximal := 1440 }).2.2 = false := by
  have hlook : tdpStateEx.timeoutDeltas.lookup ("L-BTC/L-BTC") =
      some { base := { reverse := 1440, swapMinimal := 240, swapMaximal := 1440 }
             quote := { reverse := 1440, swapMinimal := 240, swapMaximal := 1440 } } := rfl
  have hred : setTimeout tdpStateEx ("L-BTC/L-BTC")
      { reverse := 1440, swapMinimal := 240, swapMaximal := 1440 } =
      (Except.ok (),
       { timeoutDeltas := setAssoc tdpStateEx.timeoutDeltas ("L-BTC/L-BTC")
           { base := { reverse := 1440, swapMinimal := 240, swapMaximal := 1440 }
             quote := { reverse := 1440, swapMinimal := 240, swapMaximal := 1440 } }
         config := { tdpStateEx.config with
           pairs := updatePairs tdpStateEx.config.pairs ("L-BTC/L-BTC")
             { reverse := 1440, swapMinimal := 240, swapMaximal := 1440 } } },
       [FsOp.write tdpStateEx.config.configpath
         (serializeConfig { tdpStateEx.config with
           pairs := updatePairs tdpStateEx.config.pairs ("L-BTC/L-BTC")
             { reverse := 1440, swapMinimal := 240, swapMaximal := 1440 } })]) := by
    unfold setTimeout
    rw [hlook, minutesToBlocksEx_eval]
  rw [hred]
  exact ⟨rfl, rfl, rfl⟩

/-- C9 witness: the amended claim applied to the concrete state — the call
succeeds and preserves the config path and the extra fields. -/
theorem setTimeout_spec_witness :
    (setTimeout tdpStateEx ("L-BTC/L-BTC")
      { reverse := 1440, swapMinimal := 240, swapMaximal := 1440 }).1 = Except.ok () ∧
    (setTimeout tdpStateEx ("L-BTC/L-BTC")
      { reverse := 1440, swapMinimal := 240, swapMaximal := 1440 }).2.1.config.configpath =
      ("boltz.conf") ∧
    (setTimeout tdpStateEx ("L-BTC/L-BTC")
      { reverse := 1440, swapMinimal := 240, swapMaximal := 1440 }).2.1.config.extra =
      [(("loglevel"), ("debug"))] := by
  have h := (setTimeout_spec tdpStateEx ("L-BTC/L-BTC")
    { reverse := 1440, swapMinimal := 240, swapMaximal := 1440 }).1 rfl
    { base := { reverse := 1440, swapMinimal := 240, swapMaximal := 1440 }
      quote := { reverse := 1440, swapMinimal := 240, swapMaximal := 1440 } }
    minutesToBlocksEx_eval
  refine ⟨h.1, ?_, ?_⟩
  · rw [h.2.1]
    rfl
  · rw [h.2.2.1]
    rfl
